import Mathlib

/-
Shallow embedding of the AtomiaBot frontend chat component
(src/Frontend/src/assets/pages/AtomiaBot/Bot.jsx).

The component keeps five pieces of React state (lines 6-10):
messages, subject, input, sessionId, loading.  The only operations are
the async function sendMessage (lines 19-50), the key handler
handleKeyDown (lines 52-54), the subject buttons (lines 85-111, one per
entry of the subjects array, line 56), the controlled input field
(line 161) and the send button (lines 165-167, disabled while loading).

Modelling decisions, each anchored in a source line:
* A JS field that may be absent or hold the value undefined is an
  Option: the response body is dynamic, so data.session_id and
  data.text_response (lines 35, 37) are Option String, and a Message
  text is Option String (some s for a string, none for undefined).
* The awaited axios.post promise (line 28) either resolves with a data
  object or rejects; rejection (network error or non-2xx status, the
  axios default validateStatus) is what the catch block (line 39)
  handles.  A 2xx response whose body is not the expected shape still
  resolves, with absent fields read as undefined.
* One run of sendMessage is a list of effects: the four effects
  before the await (lines 22-32) and the effects after the promise
  settles (lines 34-38 or 40-46, then the finally block, line 48).
  State setters with functional form (setMessages prev => ...) append;
  the request body (lines 29-31) is built from the closure values of
  sessionId, input and subject captured before setInput ran, which the
  trace reproduces by reading the request fields from the pre-call
  state.
* The fine-grained uiStep relation splits an exchange into its start
  (everything before the await) and its settlement, with a ghost
  counter inFlight for the number of pending awaits, so that states
  observed while a request is pending are reachable.
-/

/-- A chat message record as built on lines 22, 37 and 42-45: a role
string and a text that is Option String because the assistant text is
read from a dynamic response field and can be the JS value undefined. -/
structure Message where
  role : String
  text : Option String
deriving DecidableEq

/-- The outbound HTTP request of line 28: the url argument of
axios.post and the three body fields of lines 29-31. -/
structure Request where
  url : String
  session_id : Option String
  message : String
  subject : String
deriving DecidableEq

/-- The fields the success path reads from response.data (lines 34-37);
none models an absent field or the value undefined. -/
structure RespData where
  session_id : Option String
  text_response : Option String
deriving DecidableEq

/-- How the awaited promise of line 28 settles: resolved with a data
object (any 2xx response, well formed or not), or rejected (network
error or non-2xx status), which is what the catch on line 39 receives. -/
inductive ExchangeResult where
  | resolved (data : RespData)
  | rejected
deriving DecidableEq

/-- The React state of the component (lines 6-10) plus a ghost counter
inFlight recording how many sendMessage calls are suspended at their
await; inFlight is bookkeeping of the event loop, not a JS variable. -/
structure BotState where
  messages : List Message
  subject : String
  input : String
  sessionId : Option String
  loading : Bool
  inFlight : Nat
deriving DecidableEq

/-- The JS method String.prototype.trim as called on line 20: strip
leading and trailing whitespace.  Written over the character list so
that it evaluates inside the kernel; Char.isWhitespace covers the
ASCII whitespace characters, which is the fragment the claims use. -/
def jsTrim (s : String) : String :=
  String.mk (((s.data.dropWhile Char.isWhitespace).reverse.dropWhile
    Char.isWhitespace).reverse)

/-- The compile-time base url constant of line 13. -/
def API_BASE_URL : String := "http://localhost:8000"

/-- The url passed to axios.post on line 28. -/
def chatUrl : String := API_BASE_URL ++ "/chat"

/-- The fixed subject array of line 56; the selector renders exactly one
button per entry. -/
def subjects : List String := ["Physics", "Chemistry", "Mathematics", "Biology"]

/-- The useState initial values of lines 6-10, with no pending await. -/
def initialBotState : BotState :=
  { messages := [], subject := "Physics", input := "", sessionId := none,
    loading := false, inFlight := 0 }

/-- One primitive side effect of the component: a state setter call or
the issuing of the network request. -/
inductive Effect where
  | appendMessage (m : Message)
  | setInput (v : String)
  | setLoading (b : Bool)
  | setSessionId (v : Option String)
  | setSubject (v : String)
  | postRequest (r : Request)
deriving DecidableEq

/-- Interpreting one effect on the state.  appendMessage interprets the
functional setter setMessages prev => prev concat msg (lines 23, 38,
40); postRequest only emits the request and changes no state. -/
def applyEffect (s : BotState) : Effect → BotState
  | .appendMessage m => { s with messages := s.messages ++ [m] }
  | .setInput v => { s with input := v }
  | .setLoading b => { s with loading := b }
  | .setSessionId v => { s with sessionId := v }
  | .setSubject v => { s with subject := v }
  | .postRequest _ => s

/-- Interpreting a list of effects left to right. -/
def applyEffects (s : BotState) (es : List Effect) : BotState :=
  es.foldl applyEffect s

/-- The network requests contained in an effect list, in order. -/
def requestsOf (es : List Effect) : List Request :=
  es.filterMap fun e =>
    match e with
    | .postRequest r => some r
    | _ => none

/-- The request built on lines 28-32 from the state captured by the
closure at the moment sendMessage starts. -/
def mkRequest (s : BotState) : Request :=
  { url := chatUrl, session_id := s.sessionId, message := s.input,
    subject := s.subject }

/-- The effects of lines 22-32, before the await: append the user
record, clear the input, raise the loading flag, issue the request. -/
def preAwaitList (s : BotState) : List Effect :=
  [ .appendMessage { role := "user", text := some s.input },
    .setInput "",
    .setLoading true,
    .postRequest (mkRequest s) ]

/-- The fixed fallback text of line 44. -/
def fallbackText : String := "⚠️ Unable to reach Atomia API. Please try again."

/-- The effects after the promise settles: on resolution lines 34-38
(adopt data.session_id, append the assistant record built from
data.text_response), on rejection lines 40-46 (append the fallback
record); in both cases the finally block of line 48 lowers loading. -/
def postSettleList : ExchangeResult → List Effect
  | .resolved d =>
      [ .setSessionId d.session_id,
        .appendMessage { role := "assistant", text := d.text_response },
        .setLoading false ]
  | .rejected =>
      [ .appendMessage { role := "assistant", text := some fallbackText },
        .setLoading false ]

/-- The complete effect trace of one sendMessage call whose awaited
promise settles as o.  Line 20 returns early when input.trim() is the
empty string (the only falsy string). -/
def sendMessageTrace (s : BotState) (o : ExchangeResult) : List Effect :=
  if jsTrim s.input = "" then []
  else preAwaitList s ++ postSettleList o

/-- The state after one complete sendMessage call (start plus
settlement of its own promise). -/
def sendMessage (s : BotState) (o : ExchangeResult) : BotState :=
  applyEffects s (sendMessageTrace s o)

/-- The start of a sendMessage call: the guard of line 20, then the
pre-await effects, leaving one more promise pending. -/
def startSend (s : BotState) : BotState × List Effect :=
  if jsTrim s.input = "" then (s, [])
  else ({ applyEffects s (preAwaitList s) with inFlight := s.inFlight + 1 },
        preAwaitList s)

/-- The UI events the rendered component can receive: a click on the
send button (line 166), a key press in the input field (line 162), the
settlement of a pending exchange promise, a click on a subject button
(line 88), a change of the input field (line 161). -/
inductive UiEvent where
  | clickSend
  | keyDown (key : String)
  | settle (o : ExchangeResult)
  | selectSubjectEv (sub : String)
  | changeInput (v : String)

/-- One UI step, returning the next state and the effects emitted.  A
disabled button (disabled set to loading, line 167) fires no onClick,
so clickSend is a no-op while loading; handleKeyDown (lines 52-54)
calls sendMessage whenever the key is Enter, with no loading check;
settle resumes one pending sendMessage after its await. -/
def uiStep (s : BotState) : UiEvent → BotState × List Effect
  | .clickSend => if s.loading then (s, []) else startSend s
  | .keyDown k => if k = "Enter" then startSend s else (s, [])
  | .settle o =>
      if s.inFlight = 0 then (s, [])
      else ({ applyEffects s (postSettleList o) with inFlight := s.inFlight - 1 },
            postSettleList o)
  | .selectSubjectEv sub => ({ s with subject := sub }, [.setSubject sub])
  | .changeInput v => ({ s with input := v }, [.setInput v])

/-- Which events the rendered page can actually produce: subject
buttons exist only for entries of the subjects array (line 85). -/
def validEvent : UiEvent → Prop
  | .selectSubjectEv sub => sub ∈ subjects
  | _ => True

/-- States reachable from the initial render through valid UI events. -/
inductive Reachable : BotState → Prop where
  | init : Reachable initialBotState
  | next {s : BotState} (e : UiEvent) :
      Reachable s → validEvent e → Reachable (uiStep s e).1

/-- The argument of scrollIntoView on line 16. -/
structure ScrollCommand where
  behavior : String
deriving DecidableEq

/-- The scroll commands the useEffect of lines 15-17 emits after a
render: its dependency array is [messages], so it fires exactly when
the messages array changed, and calls scrollIntoView with behavior
smooth on the chat-end anchor.  The optional chaining on line 16 makes
the effect total. -/
def scrollCommands (prev next : List Message) : List ScrollCommand :=
  if prev = next then [] else [{ behavior := "smooth" }]

/-- A node of the rendered message area: one row per message (lines
128-149) followed by the chat-end anchor div (line 151), the target of
scrollIntoView. -/
inductive RenderNode where
  | row (m : Message)
  | chatAnchor
deriving DecidableEq

/-- The rendered message area, in document order: the rows in
transcript order, then the anchor (lines 128-151). -/
def renderedList (msgs : List Message) : List RenderNode :=
  msgs.map RenderNode.row ++ [RenderNode.chatAnchor]

/-- A state with text typed in the input field and a session already
adopted from an earlier success; used to probe what the success path
does when the resolved payload lacks the expected fields. -/
def malformedProbe : BotState :=
  { initialBotState with input := "X", sessionId := some "abc" }

/-- A state reached by typing Hi, pressing Enter (which starts an
exchange and raises the loading flag) and typing Hi again while the
exchange is still pending. -/
def busyBotState : BotState :=
  (uiStep (uiStep (uiStep initialBotState (.changeInput "Hi")).1
    (.keyDown "Enter")).1 (.changeInput "Hi")).1


/-- Claim C6: when the input is empty or whitespace-only, submit is a
no-op: no effects are emitted (so no transcript change, no network
call) and the state (input, busy flag, session identifier included) is
unchanged, both for a complete call and for the start phase. -/
theorem blank_input_noop :
    ∀ (s : BotState) (o : ExchangeResult), jsTrim s.input = "" →
      sendMessageTrace s o = [] ∧ sendMessage s o = s ∧ startSend s = (s, []) := by
  intro s o h
  refine ⟨?_, ?_, ?_⟩ <;>
    simp [sendMessageTrace, sendMessage, startSend, applyEffects, h]

/-- Witness for blank_input_noop at the whitespace-only input. -/
theorem blank_input_noop_app :
    sendMessage { initialBotState with input := "   " } .rejected =
      { initialBotState with input := "   " } :=
  (blank_input_noop { initialBotState with input := "   " } .rejected
    (by decide)).2.1

/-- Claim C2: a submit whose input trims non-empty emits, before its
promise settles, exactly the four effects append-user-record,
clear-input, raise-busy, issue-one-request, in that order; and the
settlement phase issues no further request, so the request count of the
whole call is one. -/
theorem submit_effect_order :
    ∀ (s : BotState) (o : ExchangeResult), jsTrim s.input ≠ "" →
      (startSend s).2 =
        [ .appendMessage { role := "user", text := some s.input },
          .setInput "",
          .setLoading true,
          .postRequest (mkRequest s) ] ∧
      requestsOf (postSettleList o) = [] := by
  intro s o h
  constructor
  · simp [startSend, h, preAwaitList]
  · cases o <;> rfl

/-- Witness for submit_effect_order at input X. -/
theorem submit_effect_order_app :
    (startSend { initialBotState with input := "X" }).2 =
      [ .appendMessage { role := "user", text := some "X" },
        .setInput "",
        .setLoading true,
        .postRequest
          { url := chatUrl, session_id := none, message := "X",
            subject := "Physics" } ] ∧
      requestsOf (postSettleList .rejected) = [] := by
  have h := submit_effect_order { initialBotState with input := "X" }
    .rejected (by decide)
  simpa [initialBotState, mkRequest] using h

/-- Claim C3: a successful exchange carrying both expected fields
replaces the stored session identifier with the returned one, appends
exactly one assistant record with the returned text after the user
record, and ends with the busy flag lowered. -/
theorem success_exchange :
    ∀ (s : BotState) (sid txt : String), jsTrim s.input ≠ "" →
      sendMessage s
          (.resolved { session_id := some sid, text_response := some txt }) =
        { s with
          messages := s.messages ++
            [ { role := "user", text := some s.input },
              { role := "assistant", text := some txt } ],
          input := "", sessionId := some sid, loading := false } := by
  intro s sid txt h
  obtain ⟨ms, sb, iv, sd, ld, fl⟩ := s
  simp only [sendMessage, sendMessageTrace] at *
  rw [if_neg h]
  simp [applyEffects, applyEffect, preAwaitList, postSettleList, mkRequest]

/-- Witness for success_exchange: submitting X and receiving session
abc with text Y from the initial state. -/
theorem success_exchange_app :
    sendMessage { initialBotState with input := "X" }
        (.resolved { session_id := some "abc", text_response := some "Y" }) =
      { initialBotState with
        messages := [ { role := "user", text := some "X" },
                      { role := "assistant", text := some "Y" } ],
        sessionId := some "abc" } := by
  have h := success_exchange { initialBotState with input := "X" } "abc" "Y"
    (by decide)
  simpa [initialBotState] using h

/-- Claim C1 (amended): a rejected exchange (network error or non-2xx
status) appends exactly the fixed fallback assistant record after the
user record, leaves the session identifier unchanged and lowers the
busy flag; but a resolved exchange with a malformed payload is not
treated as a failure: it takes the success path, overwriting the
session identifier with the possibly absent session_id field and
appending an assistant record carrying the possibly absent
text_response field. -/
theorem exchange_settlement :
    (∀ s : BotState, jsTrim s.input ≠ "" →
      sendMessage s .rejected =
        { s with
          messages := s.messages ++
            [ { role := "user", text := some s.input },
              { role := "assistant", text := some fallbackText } ],
          input := "", loading := false }) ∧
    (∀ (s : BotState) (d : RespData), jsTrim s.input ≠ "" →
      sendMessage s (.resolved d) =
        { s with
          messages := s.messages ++
            [ { role := "user", text := some s.input },
              { role := "assistant", text := d.text_response } ],
          input := "", sessionId := d.session_id, loading := false }) := by
  constructor
  · intro s h
    obtain ⟨ms, sb, iv, sd, ld, fl⟩ := s
    simp only [sendMessage, sendMessageTrace] at *
    rw [if_neg h]
    simp [applyEffects, applyEffect, preAwaitList, postSettleList, mkRequest]
  · intro s d h
    obtain ⟨ms, sb, iv, sd, ld, fl⟩ := s
    simp only [sendMessage, sendMessageTrace] at *
    rw [if_neg h]
    simp [applyEffects, applyEffect, preAwaitList, postSettleList, mkRequest]

/-- Witness for exchange_settlement: a rejected exchange from the
initial state with input X appends the fallback record. -/
theorem exchange_settlement_app :
    sendMessage { initialBotState with input := "X" } .rejected =
      { initialBotState with
        messages := [ { role := "user", text := some "X" },
                      { role := "assistant", text := some fallbackText } ] } := by
  have h := exchange_settlement.1 { initialBotState with input := "X" }
    (by decide)
  simpa [initialBotState] using h

/-- Counterexample to claim C1 as stated: a 2xx exchange whose payload
is malformed (both expected fields absent) is a failing exchange in the
claim's sense, yet the code does not append the fixed fallback record
(it appends an assistant record with undefined text) and does not leave
the stored session identifier unchanged (it overwrites it with
undefined). -/
theorem malformed_payload_not_fallback :
    (sendMessage malformedProbe
        (.resolved { session_id := none, text_response := none })).messages =
      [ { role := "user", text := some "X" },
        { role := "assistant", text := none } ] ∧
    ({ role := "assistant", text := none } : Message) ≠
      { role := "assistant", text := some fallbackText } ∧
    (sendMessage malformedProbe
        (.resolved { session_id := none, text_response := none })).sessionId ≠
      malformedProbe.sessionId := by
  refine ⟨by decide, by decide, by decide⟩

/-- Counterexample to claim C4 as stated: a reachable state with the
busy flag raised from which the Enter key in the input field initiates
a second network request, because handleKeyDown calls sendMessage
without checking the loading flag. -/
theorem enter_while_busy_sends :
    Reachable busyBotState ∧ busyBotState.loading = true ∧
      requestsOf (uiStep busyBotState (.keyDown "Enter")).2 =
        [ { url := chatUrl, session_id := none, message := "Hi",
            subject := "Physics" } ] := by
  refine ⟨?_, by decide, by decide⟩
  exact .next (.changeInput "Hi")
    (.next (.keyDown "Enter")
      (.next (.changeInput "Hi") .init trivial) trivial) trivial

/-- Claim C4 (amended): while the busy flag is true the send button is
disabled and initiates nothing, but the Enter key path is unguarded:
pressing Enter with an input that trims non-empty while busy initiates
one further network request. -/
theorem busy_guard_button_only :
    (∀ s : BotState, s.loading = true → uiStep s .clickSend = (s, [])) ∧
    (∀ s : BotState, s.loading = true → jsTrim s.input ≠ "" →
      requestsOf (uiStep s (.keyDown "Enter")).2 = [mkRequest s]) := by
  constructor
  · intro s h
    simp [uiStep, h]
  · intro s h hne
    simp [uiStep, startSend, hne, preAwaitList, requestsOf]

/-- Witness for busy_guard_button_only at the reachable busy state. -/
theorem busy_guard_button_only_app :
    uiStep busyBotState .clickSend = (busyBotState, []) ∧
    requestsOf (uiStep busyBotState (.keyDown "Enter")).2 =
      [mkRequest busyBotState] :=
  ⟨busy_guard_button_only.1 busyBotState (by decide),
   busy_guard_button_only.2 busyBotState (by decide) (by decide)⟩

/-- Claim C5: every submitted exchange issues exactly one POST request
to the chat url, whose body carries the currently stored session
identifier (none on the first turn), the submitted text and the
selected subject; and a second submission after a success that
returned session abc carries session abc. -/
theorem request_payload_shape :
    (∀ (s : BotState) (o : ExchangeResult), jsTrim s.input ≠ "" →
      requestsOf (sendMessageTrace s o) =
        [ { url := chatUrl, session_id := s.sessionId, message := s.input,
            subject := s.subject } ]) ∧
    (∀ (s : BotState) (txt : Option String) (v2 : String)
        (o2 : ExchangeResult),
      jsTrim s.input ≠ "" → jsTrim v2 ≠ "" →
      requestsOf (sendMessageTrace
          { sendMessage s
              (.resolved { session_id := some "abc", text_response := txt })
            with input := v2 } o2) =
        [ { url := chatUrl, session_id := some "abc", message := v2,
            subject := s.subject } ]) := by
  constructor
  · intro s o h
    cases o <;>
      simp [sendMessageTrace, h, requestsOf, preAwaitList, postSettleList,
        mkRequest]
  · intro s txt v2 o2 h hv2
    obtain ⟨ms, sb, iv, sd, ld, fl⟩ := s
    simp only [sendMessage, sendMessageTrace] at *
    rw [if_neg h]
    cases o2 <;>
      simp [applyEffects, applyEffect, preAwaitList, postSettleList,
        mkRequest, requestsOf, hv2]

/-- Witness for request_payload_shape: the first submission of X, and a
second submission of X2 after a success that returned session abc. -/
theorem request_payload_shape_app :
    requestsOf (sendMessageTrace { initialBotState with input := "X" }
        .rejected) =
      [ { url := chatUrl, session_id := none, message := "X",
          subject := "Physics" } ] ∧
    requestsOf (sendMessageTrace
        { (sendMessage { initialBotState with input := "X" }
            (.resolved
              { session_id := some "abc", text_response := some "Y" }))
          with input := "X2" } .rejected) =
      [ { url := chatUrl, session_id := some "abc", message := "X2",
          subject := "Physics" } ] := by
  constructor
  · have h := request_payload_shape.1 { initialBotState with input := "X" }
      .rejected (by decide)
    simpa [initialBotState] using h
  · have h := request_payload_shape.2 { initialBotState with input := "X" }
      (some "Y") "X2" .rejected (by decide) (by decide)
    simpa [initialBotState] using h

/-- Claim C7: the transcript is append-only under every UI event (the
new message list is the old one followed by some tail), and rendering
reads the transcript back in insertion order (the first rows of the
rendered area are exactly the messages, in order). -/
theorem transcript_append_only :
    (∀ (s : BotState) (e : UiEvent), ∃ tail : List Message,
      ((uiStep s e).1).messages = s.messages ++ tail) ∧
    (∀ msgs : List Message,
      (renderedList msgs).take msgs.length = msgs.map RenderNode.row) := by
  constructor
  · intro s e
    cases e with
    | clickSend =>
        by_cases h : s.loading
        · exact ⟨[], by simp [uiStep, h]⟩
        · by_cases h2 : jsTrim s.input = ""
          · exact ⟨[], by simp [uiStep, h, startSend, h2]⟩
          · exact ⟨[{ role := "user", text := some s.input }], by
              simp [uiStep, h, startSend, h2, applyEffects, applyEffect,
                preAwaitList]⟩
    | keyDown k =>
        by_cases h : k = "Enter"
        · by_cases h2 : jsTrim s.input = ""
          · exact ⟨[], by simp [uiStep, h, startSend, h2]⟩
          · exact ⟨[{ role := "user", text := some s.input }], by
              simp [uiStep, h, startSend, h2, applyEffects, applyEffect,
                preAwaitList]⟩
        · exact ⟨[], by simp [uiStep, h]⟩
    | settle o =>
        by_cases h : s.inFlight = 0
        · exact ⟨[], by simp [uiStep, h]⟩
        · cases o with
          | resolved d =>
              exact ⟨[{ role := "assistant", text := d.text_response }], by
                simp [uiStep, h, applyEffects, applyEffect, postSettleList]⟩
          | rejected =>
              exact ⟨[{ role := "assistant", text := some fallbackText }], by
                simp [uiStep, h, applyEffects, applyEffect, postSettleList]⟩
    | selectSubjectEv sub => exact ⟨[], by simp [uiStep]⟩
    | changeInput v => exact ⟨[], by simp [uiStep]⟩
  · intro msgs
    rw [renderedList, ← List.length_map msgs RenderNode.row, List.take_left]

/-- Claim C8: clicking a subject button (one exists per entry of the
fixed subjects array) changes only the stored subject value, leaving
transcript, session identifier, busy flag, input and pending exchanges
untouched and emitting no request; the new value stays in the closed
set; and the subject appears in the body of the next request only. -/
theorem subject_selection_frame :
    ∀ (s : BotState) (sub : String), sub ∈ subjects →
      (uiStep s (.selectSubjectEv sub)).1 = { s with subject := sub } ∧
      ((uiStep s (.selectSubjectEv sub)).1).subject ∈ subjects ∧
      requestsOf (uiStep s (.selectSubjectEv sub)).2 = [] ∧
      (∀ (v : String) (o : ExchangeResult), jsTrim v ≠ "" →
        requestsOf (sendMessageTrace
            { (uiStep s (.selectSubjectEv sub)).1 with input := v } o) =
          [ { url := chatUrl, session_id := s.sessionId, message := v,
              subject := sub } ]) := by
  intro s sub hsub
  refine ⟨rfl, by simpa [uiStep] using hsub, rfl, ?_⟩
  intro v o h
  cases o <;>
    simp [uiStep, sendMessageTrace, h, requestsOf, preAwaitList,
      postSettleList, mkRequest]

/-- Witness for subject_selection_frame: selecting Biology from the
initial state, then submitting Q. -/
theorem subject_selection_frame_app :
    (uiStep initialBotState (.selectSubjectEv "Biology")).1 =
      { initialBotState with subject := "Biology" } ∧
    requestsOf (sendMessageTrace
        { (uiStep initialBotState (.selectSubjectEv "Biology")).1 with
          input := "Q" } .rejected) =
      [ { url := chatUrl, session_id := none, message := "Q",
          subject := "Biology" } ] := by
  have h := subject_selection_frame initialBotState "Biology" (by decide)
  exact ⟨h.1, by simpa [initialBotState] using h.2.2.2 "Q" .rejected (by decide)⟩

/-- Claim C9: after every transcript change the scroll effect fires
exactly once with smooth behavior (its dependency array is the message
list), and the scroll target, the chat-end anchor, is rendered as the
last node of the message area, immediately after the row of the most
recently appended message. -/
theorem scroll_on_transcript_change :
    (∀ prev next : List Message, prev ≠ next →
      scrollCommands prev next = [{ behavior := "smooth" }]) ∧
    (∀ (msgs : List Message) (m : Message),
      renderedList (msgs ++ [m]) =
        msgs.map RenderNode.row ++
          [RenderNode.row m, RenderNode.chatAnchor]) := by
  constructor
  · intro prev next h
    simp [scrollCommands, h]
  · intro msgs m
    simp [renderedList]

/-- Witness for scroll_on_transcript_change: appending the first user
record fires one smooth scroll command. -/
theorem scroll_on_transcript_change_app :
    scrollCommands [] [{ role := "user", text := some "X" }] =
      [{ behavior := "smooth" }] :=
  scroll_on_transcript_change.1 [] [{ role := "user", text := some "X" }]
    (by decide)

/-- Claim C10: the initial state has an empty transcript, session
identifier none, busy flag false, empty input and subject Physics, so
a first submission made without touching the subject selector carries
subject Physics and session none in its one request. -/
theorem initial_state_shape :
    initialBotState =
      { messages := [], subject := "Physics", input := "", sessionId := none,
        loading := false, inFlight := 0 } ∧
    (∀ (v : String) (o : ExchangeResult), jsTrim v ≠ "" →
      requestsOf (sendMessageTrace { initialBotState with input := v } o) =
        [ { url := chatUrl, session_id := none, message := v,
            subject := "Physics" } ]) := by
  constructor
  · rfl
  · intro v o h
    cases o <;>
      simp [sendMessageTrace, h, requestsOf, preAwaitList, postSettleList,
        mkRequest, initialBotState]

/-- Witness for initial_state_shape: the first submission of X carries
subject Physics and session none. -/
theorem initial_state_shape_app :
    requestsOf (sendMessageTrace { initialBotState with input := "X" }
        .rejected) =
      [ { url := chatUrl, session_id := none, message := "X",
          subject := "Physics" } ] :=
  initial_state_shape.2 "X" .rejected (by decide)
